import Mathlib

/-!
# Material requests router: shallow embedding and verification

This file embeds the material-requests HTTP router (`src/router.py`) as
executable Lean definitions and proves the frozen claims about it.

Modelling conventions:
- Database tables are lists of row structures; a `DB` value is the committed
  state. Every endpoint is a pure function `DB → args → DB × Except Err out`:
  the returned `DB` is the committed post-state (an error return models a
  raised exception, after which nothing was committed — the SQLAlchemy
  session is rolled back, so the pre-state stands).
- Python dicts built for responses are association lists `Dict` over a
  `Value` sum type, mirroring the exact column/key names of the code.
- The Python role field can be `None`, unparseable by `int(...)`, or an
  integer; `RoleField` has one constructor per case.
- Python truthiness on nullable integer columns (`if d.get("product_id")`)
  is `optTruthy`: false for `none` and for `some 0`.
- Timestamps are `Timestamp` records carrying the calendar year (for the
  `EXTRACT(YEAR FROM ...)` filter) and an abstract tick; `NOW()` is an
  explicit argument of the endpoints that write it.
-/

/-- Values that can appear in a response dict (JSON-ish). -/
inductive Value where
  | null
  | i (n : Int)
  | r (q : Rat)
  | s (t : String)
  | b (bo : Bool)
  | ts (y : Int) (tick : Nat)
deriving DecidableEq, Repr

/-- A Python dict as built by the router: an association list keyed by strings. -/
abbrev Dict := List (String × Value)

/-- `d.get(k)` for a dict. -/
def dictGet (d : Dict) (k : String) : Option Value :=
  (d.find? (fun kv => kv.1 == k)).map (fun kv => kv.2)

/-- `d[k] = v` for a dict: overwrite the existing binding, else append. -/
def dictSet (d : Dict) (k : String) (v : Value) : Dict :=
  if (d.find? (fun kv => kv.1 == k)).isSome then
    d.map (fun kv => if kv.1 == k then (k, v) else kv)
  else
    d ++ [(k, v)]

/-- A point in time: calendar year plus an abstract tick inside this year. -/
structure Timestamp where
  year : Int
  tick : Nat
deriving DecidableEq, Repr

/-- The `role_id` column as seen through `int(user.get("role_id"))` with the
surrounding try/except: absent (`None`), present but unparseable, or an integer. -/
inductive RoleField where
  | absent
  | unparseable
  | val (n : Int)
deriving DecidableEq, Repr

/-- A row of the `users` table (columns used by the router). -/
structure UserRow where
  id : Int
  name : String
  role_id : RoleField
  deleted : Bool
deriving DecidableEq, Repr

/-- A row of the `material_requests` table. -/
structure MRRow where
  id : Int
  project_id : Option Int
  client_id : Option Int
  estimate_id : Option Int
  estimate_revision_id : Option Int
  status : String
  warehouse_id : Option Int
  requested_by : Int
  memo : Option String
  created_at : Timestamp
  updated_at : Timestamp
deriving DecidableEq, Repr

/-- A row of the `material_request_items` table. -/
structure MRItemRow where
  id : Int
  material_request_id : Int
  product_id : Option Int
  estimate_item_id : Option Int
  item_name_snapshot : Option String
  spec_snapshot : Option String
  unit_snapshot : Option String
  qty_requested : Option Rat
  qty_used : Option Rat
  note : Option String
  prep_status : String
deriving DecidableEq, Repr

/-- A row of the `inventory` table (the columns the router reads). -/
structure InvRow where
  warehouse_id : Int
  product_id : Int
  qty_on_hand : Option Rat
deriving DecidableEq, Repr

/-- The committed database state, with serial-id allocators for the two
tables this router inserts into. -/
structure DB where
  users : List UserRow
  requests : List MRRow
  items : List MRItemRow
  inventory : List InvRow
  next_mr_id : Int
  next_item_id : Int
deriving DecidableEq, Repr

/-- Errors an endpoint can raise: an `HTTPException` with its status code, or
a failure propagating from the persistence layer. -/
inductive Err where
  | http (status : Nat)
  | dbFailure
deriving DecidableEq, Repr

def ROLE_ADMIN_ID : Int := 6

def ROLE_OPERATOR_ID : Int := 7

/-- `_get_user`: fetch the active (non-deleted) user with this id, else 401. -/
def _get_user (db : DB) (user_id : Int) : Except Err UserRow :=
  match db.users.find? (fun u => u.id == user_id && !u.deleted) with
  | some u => Except.ok u
  | none => Except.error (Err.http 401)

/-- `_is_admin_or_operator`: parse the role field (failures give no role) and
compare with the two privileged ids. -/
def _is_admin_or_operator (user : UserRow) : Bool :=
  match user.role_id with
  | RoleField.val rid => rid == ROLE_ADMIN_ID || rid == ROLE_OPERATOR_ID
  | _ => false

/-- `require_admin_or_operator`: resolve the user, then 403 unless privileged. -/
def require_admin_or_operator (db : DB) (user_id : Int) : Except Err UserRow :=
  match _get_user db user_id with
  | Except.error e => Except.error e
  | Except.ok user =>
    if _is_admin_or_operator user then Except.ok user
    else Except.error (Err.http 403)

/-- Python truthiness of a nullable integer column: `None` and `0` are falsy. -/
def optTruthy : Option Int → Bool
  | none => false
  | some n => n != 0

/-- The detail-view aggregation loop over the item rows in order:
start at READY, flip to PREPARING and stop at the first PREPARING item. -/
def aggPrep : List String → String
  | [] => "READY"
  | s :: rest => if s == "PREPARING" then "PREPARING" else aggPrep rest

/-- The per-row `EXISTS` summary of the list query: PREPARING when some item
of the request is PREPARING, else READY. -/
def listPrepSummary (db : DB) (mr_id : Int) : String :=
  if db.items.any (fun it => it.material_request_id == mr_id && it.prep_status == "PREPARING")
  then "PREPARING" else "READY"

/-- The item rows of one request, as `WHERE material_request_id = :mr_id`. -/
def itemsOf (db : DB) (mr_id : Int) : List MRItemRow :=
  db.items.filter (fun it => it.material_request_id == mr_id)

/-- C4: the capability check returns true iff the role id equals the admin or
operator id; absent or unparseable role fields give false (and, the function
being total, no exception escapes). -/
theorem C4_capability_check (u : UserRow) :
    _is_admin_or_operator u = true ↔
      (u.role_id = RoleField.val ROLE_ADMIN_ID ∨ u.role_id = RoleField.val ROLE_OPERATOR_ID) := by
  cases h : u.role_id with
  | absent => simp [_is_admin_or_operator, h]
  | unparseable => simp [_is_admin_or_operator, h]
  | val n =>
    simp only [_is_admin_or_operator, h, Bool.or_eq_true, beq_iff_eq]
    constructor
    · rintro (rfl | rfl)
      · exact Or.inl rfl
      · exact Or.inr rfl
    · rintro (h6 | h7)
      · exact Or.inl (by injection h6)
      · exact Or.inr (by injection h7)

/-- `u.name` for the `LEFT JOIN users u ON u.id = mr.requested_by` (note: the
join does not filter soft-deleted users). -/
def userNameById (db : DB) (uid : Int) : Option String :=
  (db.users.find? (fun u => u.id == uid)).map (fun u => u.name)

/-- `hay ILIKE :q` where the parameter is bound to the wrapped pattern
`'%' + q + '%'`: case-insensitive substring containment, for a search term
without SQL wildcard characters. -/
def ilike_contains (hay q : String) : Bool :=
  decide (List.IsInfix q.toLower.data hay.toLower.data)

/-- Convert a nullable integer column to a dict value. -/
def optI : Option Int → Value
  | none => Value.null
  | some n => Value.i n

/-- Convert a nullable string column to a dict value. -/
def optS : Option String → Value
  | none => Value.null
  | some t => Value.s t

/-- Convert a timestamp column to a dict value. -/
def tsV (t : Timestamp) : Value := Value.ts t.year t.tick

/-- The WHERE clause of the list query: the optional calendar-year filter
(applied when `year > 0`, as `if year and year > 0`), and the search
predicate over requester name or memo. The SQL guard `COALESCE(:q,'') = ''`
compares the wrapped pattern and never fires, but an empty search term
matches everything anyway. -/
def list_where (db : DB) (year : Int) (q : String) (mr : MRRow) : Bool :=
  (if year > 0 then mr.created_at.year == year else true) &&
  (ilike_contains ((userNameById db mr.requested_by).getD "") q ||
   ilike_contains ((mr.memo).getD "") q)

/-- One row dict of the list response, with the columns of the SELECT. -/
def listRowDict (db : DB) (mr : MRRow) : Dict :=
  [("id", Value.i mr.id),
   ("project_id", optI mr.project_id),
   ("memo", Value.s (mr.memo.getD "")),
   ("status", Value.s mr.status),
   ("warehouse_id", optI mr.warehouse_id),
   ("requested_by", Value.i mr.requested_by),
   ("requested_by_name", optS (userNameById db mr.requested_by)),
   ("created_at", tsV mr.created_at),
   ("updated_at", tsV mr.updated_at),
   ("prep_status", Value.s (listPrepSummary db mr.id))]

/-- `ORDER BY mr.id DESC` as a decidable relation. -/
def mrIdDesc (a b : MRRow) : Prop := b.id ≤ a.id

instance : DecidableRel mrIdDesc := fun a b => Int.decLe b.id a.id

/-- `ORDER BY mri.id ASC` as a decidable relation. -/
def mriIdAsc (a b : MRItemRow) : Prop := a.id ≤ b.id

instance : DecidableRel mriIdAsc := fun a b => Int.decLe a.id b.id

/-- Response shape of `GET /api/material-requests`. -/
structure ListOut where
  can_see_sensitive : Bool
  items : List Dict
deriving DecidableEq, Repr

/-- `list_material_requests`: resolve the caller, echo the capability flag,
and return the filtered header rows ordered by id descending. The `state`
query parameter is accepted and ignored by the code, so it is omitted here. -/
def list_material_requests (db : DB) (user_id : Int) (year : Int) (q : String) :
    Except Err ListOut :=
  match _get_user db user_id with
  | Except.error e => Except.error e
  | Except.ok user =>
    let can_see_sensitive := _is_admin_or_operator user
    let rows := List.insertionSort mrIdDesc (db.requests.filter (list_where db year q))
    Except.ok { can_see_sensitive := can_see_sensitive,
                items := rows.map (listRowDict db) }

/-- The header dict of the detail response, with the columns of its SELECT. -/
def headerDict (db : DB) (mr : MRRow) : Dict :=
  [("id", Value.i mr.id),
   ("project_id", optI mr.project_id),
   ("client_id", optI mr.client_id),
   ("estimate_id", optI mr.estimate_id),
   ("estimate_revision_id", optI mr.estimate_revision_id),
   ("status", Value.s mr.status),
   ("warehouse_id", optI mr.warehouse_id),
   ("requested_by", Value.i mr.requested_by),
   ("requested_by_name", optS (userNameById db mr.requested_by)),
   ("memo", Value.s (mr.memo.getD "")),
   ("created_at", tsV mr.created_at),
   ("updated_at", tsV mr.updated_at)]

/-- One item dict of the detail response before enrichment (`dict(r)` for a
row of the item SELECT, which COALESCEs the nullable text and quantity
columns). -/
def itemBaseDict (it : MRItemRow) : Dict :=
  [("id", Value.i it.id),
   ("material_request_id", Value.i it.material_request_id),
   ("product_id", optI it.product_id),
   ("estimate_item_id", optI it.estimate_item_id),
   ("item_name_snapshot", Value.s (it.item_name_snapshot.getD "")),
   ("spec_snapshot", Value.s (it.spec_snapshot.getD "")),
   ("unit_snapshot", Value.s (it.unit_snapshot.getD "")),
   ("qty_requested", Value.r (it.qty_requested.getD 0)),
   ("qty_used", Value.r (it.qty_used.getD 0)),
   ("note", Value.s (it.note.getD "")),
   ("prep_status", Value.s it.prep_status)]

/-- `SELECT qty_on_hand FROM inventory WHERE warehouse_id = :wh AND product_id = :pid`. -/
def invLookup (db : DB) (wh pid : Int) : Option InvRow :=
  db.inventory.find? (fun r => r.warehouse_id == wh && r.product_id == pid)

/-- Response shape of `GET /api/material-requests/mr_id`. -/
structure DetailOut where
  can_see_sensitive : Bool
  header : Dict
  prep_status : String
  items : List Dict
deriving DecidableEq, Repr

/-- `get_material_request_detail`: resolve the caller, 404 on a missing
header, enrich the item dicts (quantity on hand for privileged callers when
the header has a truthy warehouse and the item a truthy product link; null
otherwise, and used quantity nulled for non-privileged callers), and derive
the aggregate preparation status from the item rows. -/
def get_material_request_detail (db : DB) (user_id mr_id : Int) :
    Except Err DetailOut :=
  match _get_user db user_id with
  | Except.error e => Except.error e
  | Except.ok user =>
    let can_see_sensitive := _is_admin_or_operator user
    match db.requests.find? (fun mr => mr.id == mr_id) with
    | none => Except.error (Err.http 404)
    | some header =>
      let items := List.insertionSort mriIdAsc (itemsOf db mr_id)
      let items_out :=
        if can_see_sensitive && optTruthy header.warehouse_id then
          let wh := header.warehouse_id.getD 0
          items.map (fun r =>
            let d := itemBaseDict r
            if optTruthy r.product_id then
              let qoh : Rat :=
                match invLookup db wh (r.product_id.getD 0) with
                | some inv =>
                  match inv.qty_on_hand with
                  | some v => v
                  | none => 0
                | none => 0
              dictSet d "qty_on_hand" (Value.r qoh)
            else
              dictSet d "qty_on_hand" Value.null)
        else
          items.map (fun r =>
            let d := itemBaseDict r
            let d := dictSet d "qty_on_hand" Value.null
            if !can_see_sensitive then dictSet d "qty_used" Value.null else d)
      let prep_status := aggPrep (items.map (fun r => r.prep_status))
      Except.ok { can_see_sensitive := can_see_sensitive,
                  header := headerDict db header,
                  prep_status := prep_status,
                  items := items_out }

/-- Request body of one line item of `POST /api/material-requests` (the
pydantic model `MRItemIn`; note it has no preparation-status and no
used-quantity field at all). -/
structure MRItemIn where
  product_id : Option Int := none
  estimate_item_id : Option Int := none
  item_name_snapshot : String := ""
  spec_snapshot : String := ""
  unit_snapshot : String := ""
  qty_requested : Rat := 0
  note : String := ""
  source : String := "MANUAL"
deriving DecidableEq, Repr

/-- Request body of `POST /api/material-requests` (`MRCreateIn`; the
`project_name` field is accepted but never written by the INSERT). -/
structure MRCreateIn where
  project_id : Option Int := none
  client_id : Option Int := none
  estimate_id : Option Int := none
  estimate_revision_id : Option Int := none
  project_name : String := ""
  warehouse_id : Option Int := none
  memo : String := ""
  items : List MRItemIn := []
deriving DecidableEq, Repr

/-- Response of a successful create. -/
structure CreateOut where
  id : Int
  status : String
deriving DecidableEq, Repr

/-- Acknowledgement body of the write endpoints. -/
structure OkOut where
  ok : Bool
deriving DecidableEq, Repr

/-- The row the item INSERT writes: inputs copied, the preparation status
bound to the literal PREPARING and the used quantity to the literal 0. -/
def mkItemRow (mr_id item_id : Int) (it : MRItemIn) : MRItemRow :=
  { id := item_id,
    material_request_id := mr_id,
    product_id := it.product_id,
    estimate_item_id := it.estimate_item_id,
    item_name_snapshot := some it.item_name_snapshot,
    spec_snapshot := some it.spec_snapshot,
    unit_snapshot := some it.unit_snapshot,
    qty_requested := some it.qty_requested,
    qty_used := some 0,
    note := some it.note,
    prep_status := "PREPARING" }

/-- The sequential item-insert loop of create, run against a persistence
oracle `insert_ok` telling which inserts succeed. All the work is inside one
uncommitted transaction, so a failing insert makes the whole loop yield
nothing (the rows inserted before it are rolled back with it). -/
def insertItems (insert_ok : MRItemIn → Bool) (mr_id : Int) :
    Int → List MRItemIn → Option (List MRItemRow)
  | _, [] => some []
  | next_id, it :: rest =>
    if insert_ok it then
      match insertItems insert_ok mr_id (next_id + 1) rest with
      | some rows => some (mkItemRow mr_id next_id it :: rows)
      | none => none
    else none

/-- `create_material_request`, parameterized by the persistence oracle for
the item inserts: gate on the privileged capability, insert the header (the
DB assigns `next_mr_id`; `status` is the literal DRAFT, `created_at` and
`updated_at` come from the column defaults `NOW()`), insert the items, then
commit; any insert failure aborts before the commit, so the pre-state is
the committed state. -/
def create_material_request_fx (insert_ok : MRItemIn → Bool) (db : DB)
    (now : Timestamp) (user_id : Int) (payload : MRCreateIn) :
    DB × Except Err CreateOut :=
  match require_admin_or_operator db user_id with
  | Except.error e => (db, Except.error e)
  | Except.ok user =>
    let mr_id := db.next_mr_id
    let headerRow : MRRow :=
      { id := mr_id,
        project_id := payload.project_id,
        client_id := payload.client_id,
        estimate_id := payload.estimate_id,
        estimate_revision_id := payload.estimate_revision_id,
        status := "DRAFT",
        warehouse_id := payload.warehouse_id,
        requested_by := user.id,
        memo := some payload.memo,
        created_at := now,
        updated_at := now }
    match insertItems insert_ok mr_id db.next_item_id payload.items with
    | none => (db, Except.error Err.dbFailure)
    | some rows =>
      ({ db with
          requests := db.requests ++ [headerRow],
          items := db.items ++ rows,
          next_mr_id := db.next_mr_id + 1,
          next_item_id := db.next_item_id + (payload.items.length : Int) },
       Except.ok { id := mr_id, status := "DRAFT" })

/-- `create_material_request` with every item insert succeeding. -/
def create_material_request (db : DB) (now : Timestamp) (user_id : Int)
    (payload : MRCreateIn) : DB × Except Err CreateOut :=
  create_material_request_fx (fun _ => true) db now user_id payload

/-- Request body of `PUT /api/material-requests/mr_id` (`MRUpdateIn`). -/
structure MRUpdateIn where
  project_name : Option String := none
  warehouse_id : Option Int := none
  memo : Option String := none
deriving DecidableEq, Repr

/-- The SET clause of the header UPDATE on one matching row:
`memo = COALESCE(:memo, memo)`, `warehouse_id = COALESCE(:warehouse_id,
warehouse_id)`, `updated_at = NOW()`. -/
def updateHeaderRow (now : Timestamp) (payload : MRUpdateIn) (mr : MRRow) : MRRow :=
  { mr with
    memo := match payload.memo with
            | some m => some m
            | none => mr.memo,
    warehouse_id := match payload.warehouse_id with
                    | some w => some w
                    | none => mr.warehouse_id,
    updated_at := now }

/-- `update_material_request`: gate on the privileged capability, then run
the UPDATE with COALESCE merge on memo and warehouse and an unconditional
`updated_at = NOW()` on the rows whose id matches, and commit. -/
def update_material_request (db : DB) (now : Timestamp) (user_id mr_id : Int)
    (payload : MRUpdateIn) : DB × Except Err OkOut :=
  match require_admin_or_operator db user_id with
  | Except.error e => (db, Except.error e)
  | Except.ok _user =>
    let requests := db.requests.map (fun mr =>
      if mr.id == mr_id then updateHeaderRow now payload mr else mr)
    ({ db with requests := requests }, Except.ok { ok := true })

/-- Request body of `PATCH /api/material-requests/items/item_id`. -/
structure MRItemPatchIn where
  prep_status : Option String := none
  qty_used : Option Rat := none
  note : Option String := none
  qty_requested : Option Rat := none
deriving DecidableEq, Repr

/-- `payload.prep_status is not None and payload.prep_status not in
("PREPARING", "READY")`. -/
def prep_status_invalid : Option String → Bool
  | some s => !(s == "PREPARING" || s == "READY")
  | none => false

/-- The SET clause of the item UPDATE on one matching row: COALESCE merge of
the four patchable columns. -/
def patchItemRow (payload : MRItemPatchIn) (it : MRItemRow) : MRItemRow :=
  { it with
    prep_status := match payload.prep_status with
                   | some s => s
                   | none => it.prep_status,
    note := match payload.note with
            | some n => some n
            | none => it.note,
    qty_requested := match payload.qty_requested with
                     | some v => some v
                     | none => it.qty_requested,
    qty_used := match payload.qty_used with
                | some v => some v
                | none => it.qty_used }

/-- `patch_material_request_item`: resolve the caller; 403 when the used
quantity is supplied by a non-privileged caller; 400 when the supplied
preparation status is invalid; otherwise run the COALESCE-merge UPDATE on
the rows whose id matches, and commit. -/
def patch_material_request_item (db : DB) (user_id item_id : Int)
    (payload : MRItemPatchIn) : DB × Except Err OkOut :=
  match _get_user db user_id with
  | Except.error e => (db, Except.error e)
  | Except.ok user =>
    let can_edit_sensitive := _is_admin_or_operator user
    if payload.qty_used.isSome && !can_edit_sensitive then
      (db, Except.error (Err.http 403))
    else if prep_status_invalid payload.prep_status then
      (db, Except.error (Err.http 400))
    else
      let items := db.items.map (fun it =>
        if it.id == item_id then patchItemRow payload it else it)
      ({ db with items := items }, Except.ok { ok := true })

lemma aggPrep_of_mem {l : List String} (h : "PREPARING" ∈ l) :
    aggPrep l = "PREPARING" := by
  induction l with
  | nil => cases h
  | cons s rest ih =>
    by_cases hs : s = "PREPARING"
    · subst hs; simp [aggPrep]
    · rcases List.mem_cons.mp h with h1 | h1
      · exact absurd h1.symm hs
      · simp [aggPrep, hs, ih h1]

lemma aggPrep_of_all_ready {l : List String} (h : ∀ s ∈ l, s = "READY") :
    aggPrep l = "READY" := by
  induction l with
  | nil => rfl
  | cons s rest ih =>
    have hs : s = "READY" := h s (List.mem_cons_self s rest)
    have : aggPrep rest = "READY" := ih (fun t ht => h t (List.mem_cons_of_mem s ht))
    simp [aggPrep, hs, this]

lemma listPrepSummary_of_mem {db : DB} {mr_id : Int}
    (h : ∃ it ∈ itemsOf db mr_id, it.prep_status = "PREPARING") :
    listPrepSummary db mr_id = "PREPARING" := by
  obtain ⟨it, hmem, hp⟩ := h
  have hf := List.mem_filter.mp hmem
  unfold listPrepSummary
  rw [if_pos]
  refine List.any_eq_true.mpr ⟨it, hf.1, ?_⟩
  simp only [Bool.and_eq_true, beq_iff_eq]
  exact ⟨by simpa using hf.2, hp⟩

lemma listPrepSummary_of_all_ready {db : DB} {mr_id : Int}
    (h : ∀ it ∈ itemsOf db mr_id, it.prep_status = "READY") :
    listPrepSummary db mr_id = "READY" := by
  unfold listPrepSummary
  rw [if_neg]
  intro hany
  obtain ⟨it, hmem, hp⟩ := List.any_eq_true.mp hany
  simp only [Bool.and_eq_true, beq_iff_eq] at hp
  have : it ∈ itemsOf db mr_id :=
    List.mem_filter.mpr ⟨hmem, by simpa using hp.1⟩
  have := h it this
  rw [this] at hp
  exact absurd hp.2 (by decide)

lemma detail_ok_prep {db : DB} {uid mr_id : Int} {outD : DetailOut}
    (hd : get_material_request_detail db uid mr_id = Except.ok outD) :
    outD.prep_status =
      aggPrep ((List.insertionSort mriIdAsc (itemsOf db mr_id)).map
        (fun r => r.prep_status)) := by
  unfold get_material_request_detail at hd
  cases hu : _get_user db uid with
  | error e => rw [hu] at hd; cases hd
  | ok user =>
    simp only [hu] at hd
    cases hh : db.requests.find? (fun mr => mr.id == mr_id) with
    | none => simp only [hh] at hd; cases hd
    | some header =>
      simp only [hh] at hd
      cases hd
      rfl

lemma list_ok_items {db : DB} {uid year : Int} {q : String} {outL : ListOut}
    (hl : list_material_requests db uid year q = Except.ok outL) :
    outL.items =
      (List.insertionSort mrIdDesc (db.requests.filter (list_where db year q))).map
        (listRowDict db) := by
  unfold list_material_requests at hl
  cases hu : _get_user db uid with
  | error e => rw [hu] at hl; cases hl
  | ok user =>
    simp only [hu] at hl
    cases hl
    rfl

/-- C1: the aggregate preparation status of the detail view is PREPARING as
soon as one item row of the request is PREPARING and READY when the item set
is empty or all READY; the per-row summary of the list view satisfies the
same rule; and the detail scan short-circuits at the first PREPARING item
(its result does not depend on what follows it). -/
theorem C1_aggregate_prep_status (db : DB) (uid mr_id year : Int) (q : String)
    (outD : DetailOut) (outL : ListOut)
    (hd : get_material_request_detail db uid mr_id = Except.ok outD)
    (hl : list_material_requests db uid year q = Except.ok outL) :
    ((∃ it ∈ itemsOf db mr_id, it.prep_status = "PREPARING") →
        outD.prep_status = "PREPARING")
    ∧ ((∀ it ∈ itemsOf db mr_id, it.prep_status = "READY") →
        outD.prep_status = "READY")
    ∧ (∀ d ∈ outL.items, ∃ i : Int,
        dictGet d "id" = some (Value.i i)
        ∧ ((∃ it ∈ itemsOf db i, it.prep_status = "PREPARING") →
            dictGet d "prep_status" = some (Value.s "PREPARING"))
        ∧ ((∀ it ∈ itemsOf db i, it.prep_status = "READY") →
            dictGet d "prep_status" = some (Value.s "READY")))
    ∧ (∀ pre post : List String, (∀ s ∈ pre, s ≠ "PREPARING") →
        aggPrep (pre ++ "PREPARING" :: post) = "PREPARING") := by
  have hD := detail_ok_prep hd
  have hL := list_ok_items hl
  refine ⟨?_, ?_, ?_, ?_⟩
  · rintro ⟨it, hmem, hp⟩
    rw [hD]
    apply aggPrep_of_mem
    refine List.mem_map.mpr ⟨it, ?_, hp⟩
    exact (List.mem_insertionSort mriIdAsc).mpr hmem
  · intro hall
    rw [hD]
    apply aggPrep_of_all_ready
    intro s hs
    obtain ⟨it, hit, rfl⟩ := List.mem_map.mp hs
    exact hall it ((List.mem_insertionSort mriIdAsc).mp hit)
  · intro d hdm
    rw [hL] at hdm
    obtain ⟨mr, _hmr, rfl⟩ := List.mem_map.mp hdm
    refine ⟨mr.id, rfl, ?_, ?_⟩
    · intro hex
      have hkey : dictGet (listRowDict db mr) "prep_status" =
          some (Value.s (listPrepSummary db mr.id)) := rfl
      rw [hkey, listPrepSummary_of_mem hex]
    · intro hall
      have hkey : dictGet (listRowDict db mr) "prep_status" =
          some (Value.s (listPrepSummary db mr.id)) := rfl
      rw [hkey, listPrepSummary_of_all_ready hall]
  · intro pre post hpre
    induction pre with
    | nil => simp [aggPrep]
    | cons s rest ih =>
      have hs : s ≠ "PREPARING" := hpre s (List.mem_cons_self s rest)
      have hrest := ih (fun t ht => hpre t (List.mem_cons_of_mem s ht))
      simp only [List.cons_append, aggPrep]
      rw [if_neg (by simpa using hs)]
      exact hrest

/-- A concrete database: an admin (role 6), a regular user (role 3), one
request with a warehouse, one PREPARING item with a product link, one READY
item without, and one inventory record. -/
def sampleDb : DB :=
  { users := [{ id := 1, name := "Alice", role_id := RoleField.val 6, deleted := false },
              { id := 2, name := "Bob", role_id := RoleField.val 3, deleted := false }],
    requests := [{ id := 1, project_id := some 1, client_id := none, estimate_id := none,
                   estimate_revision_id := none, status := "DRAFT", warehouse_id := some 1,
                   requested_by := 1, memo := some "cable works",
                   created_at := { year := 2026, tick := 0 },
                   updated_at := { year := 2026, tick := 0 } }],
    items := [{ id := 1, material_request_id := 1, product_id := some 1,
                estimate_item_id := none, item_name_snapshot := some "Cable",
                spec_snapshot := some "2.5sq", unit_snapshot := some "EA",
                qty_requested := some 10, qty_used := some 0, note := some "",
                prep_status := "PREPARING" },
              { id := 2, material_request_id := 1, product_id := none,
                estimate_item_id := none, item_name_snapshot := some "Pipe",
                spec_snapshot := some "", unit_snapshot := some "EA",
                qty_requested := some 5, qty_used := some 0, note := some "",
                prep_status := "READY" }],
    inventory := [{ warehouse_id := 1, product_id := 1, qty_on_hand := some 42 }],
    next_mr_id := 2,
    next_item_id := 3 }

/-- The detail response of `sampleDb` for the admin caller. -/
def sampleDetail : DetailOut :=
  (get_material_request_detail sampleDb 1 1).toOption.getD
    { can_see_sensitive := false, header := [], prep_status := "", items := [] }

/-- The list response of `sampleDb` for the admin caller. -/
def sampleList : ListOut :=
  (list_material_requests sampleDb 1 0 "").toOption.getD
    { can_see_sensitive := false, items := [] }

theorem C1_aggregate_prep_status_witness :
    ((∃ it ∈ itemsOf sampleDb 1, it.prep_status = "PREPARING") →
        sampleDetail.prep_status = "PREPARING")
    ∧ ((∀ it ∈ itemsOf sampleDb 1, it.prep_status = "READY") →
        sampleDetail.prep_status = "READY")
    ∧ (∀ d ∈ sampleList.items, ∃ i : Int,
        dictGet d "id" = some (Value.i i)
        ∧ ((∃ it ∈ itemsOf sampleDb i, it.prep_status = "PREPARING") →
            dictGet d "prep_status" = some (Value.s "PREPARING"))
        ∧ ((∀ it ∈ itemsOf sampleDb i, it.prep_status = "READY") →
            dictGet d "prep_status" = some (Value.s "READY")))
    ∧ (∀ pre post : List String, (∀ s ∈ pre, s ≠ "PREPARING") →
        aggPrep (pre ++ "PREPARING" :: post) = "PREPARING") :=
  C1_aggregate_prep_status sampleDb 1 1 0 "" sampleDetail sampleList (by rfl) (by rfl)

/-- C5: a PatchItem call whose payload carries a used quantity, made by a
resolved caller without the sensitive capability, fails with 403 Forbidden
and commits nothing: the stored state is returned unchanged. -/
theorem C5_patch_used_qty_forbidden (db : DB) (uid item_id : Int)
    (p : MRItemPatchIn) (user : UserRow)
    (hu : _get_user db uid = Except.ok user)
    (hq : p.qty_used.isSome = true)
    (hc : _is_admin_or_operator user = false) :
    patch_material_request_item db uid item_id p =
      (db, Except.error (Err.http 403)) := by
  simp [patch_material_request_item, hu, hq, hc]

theorem C5_patch_used_qty_forbidden_witness :
    (_get_user sampleDb 2 = Except.ok
      { id := 2, name := "Bob", role_id := RoleField.val 3, deleted := false })
    ∧ ((some (1 : Rat)).isSome = true)
    ∧ (_is_admin_or_operator
        { id := 2, name := "Bob", role_id := RoleField.val 3, deleted := false } = false)
    ∧ patch_material_request_item sampleDb 2 1 { qty_used := some 1 } =
        (sampleDb, Except.error (Err.http 403)) :=
  ⟨by rfl, by rfl, by rfl,
    C5_patch_used_qty_forbidden sampleDb 2 1 { qty_used := some 1 }
      { id := 2, name := "Bob", role_id := RoleField.val 3, deleted := false }
      (by rfl) (by rfl) (by rfl)⟩

/-- C6 counterexample: a resolved caller without the capability patches an
item with an invalid preparation status AND a used quantity; the code fails
with 403 Forbidden, not 400 InvalidArgument, because the used-quantity
authorization check runs first. A caller id that resolves to no active user
likewise yields 401, not 400. -/
theorem C6_counterexample :
    (("DONE" : String) ≠ "PREPARING" ∧ ("DONE" : String) ≠ "READY")
    ∧ patch_material_request_item sampleDb 2 1
        { prep_status := some "DONE", qty_used := some 1 } =
        (sampleDb, Except.error (Err.http 403))
    ∧ patch_material_request_item sampleDb 99 1 { prep_status := some "DONE" } =
        (sampleDb, Except.error (Err.http 401))
    ∧ Err.http 403 ≠ Err.http 400
    ∧ Err.http 401 ≠ Err.http 400 := by
  exact ⟨by decide, by rfl, by rfl, by decide, by decide⟩

/-- C6 (amended): a PatchItem call by a resolved caller, not already rejected
by the used-quantity authorization (used quantity absent or caller
privileged), whose preparation status is present and neither PREPARING nor
READY, fails with 400 InvalidArgument and commits nothing: the stored state
is returned unchanged. -/
theorem C6_invalid_prep_status (db : DB) (uid item_id : Int)
    (p : MRItemPatchIn) (user : UserRow)
    (hu : _get_user db uid = Except.ok user)
    (hnot : ¬(p.qty_used.isSome = true ∧ _is_admin_or_operator user = false))
    (hp : ∃ s, p.prep_status = some s ∧ s ≠ "PREPARING" ∧ s ≠ "READY") :
    patch_material_request_item db uid item_id p =
      (db, Except.error (Err.http 400)) := by
  obtain ⟨s, hs, h1, h2⟩ := hp
  have hcond : (p.qty_used.isSome && !_is_admin_or_operator user) = false := by
    cases hq : p.qty_used.isSome with
    | false => simp
    | true =>
      cases hc : _is_admin_or_operator user with
      | false => exact absurd ⟨hq, hc⟩ hnot
      | true => simp
  have hinv : prep_status_invalid p.prep_status = true := by
    rw [hs]
    simp [prep_status_invalid, h1, h2]
  simp [patch_material_request_item, hu, hcond, hinv]

theorem C6_invalid_prep_status_witness :
    (_get_user sampleDb 1 = Except.ok
      { id := 1, name := "Alice", role_id := RoleField.val 6, deleted := false })
    ∧ (¬(((some (1 : Rat)).isSome = true) ∧ _is_admin_or_operator
        { id := 1, name := "Alice", role_id := RoleField.val 6, deleted := false } = false))
    ∧ patch_material_request_item sampleDb 1 1
        { prep_status := some "DONE", qty_used := some 1 } =
        (sampleDb, Except.error (Err.http 400)) :=
  ⟨by rfl, by decide,
    C6_invalid_prep_status sampleDb 1 1 { prep_status := some "DONE", qty_used := some 1 }
      { id := 1, name := "Alice", role_id := RoleField.val 6, deleted := false }
      (by rfl) (by decide) ⟨"DONE", rfl, by decide, by decide⟩⟩

lemma detail_ok_items {db : DB} {uid mr_id : Int} {user : UserRow}
    {header : MRRow} {outD : DetailOut}
    (hu : _get_user db uid = Except.ok user)
    (hh : db.requests.find? (fun mr => mr.id == mr_id) = some header)
    (hd : get_material_request_detail db uid mr_id = Except.ok outD) :
    outD.items =
      (if _is_admin_or_operator user && optTruthy header.warehouse_id then
        (List.insertionSort mriIdAsc (itemsOf db mr_id)).map (fun r =>
          if optTruthy r.product_id then
            dictSet (itemBaseDict r) "qty_on_hand"
              (Value.r
                (match invLookup db (header.warehouse_id.getD 0) (r.product_id.getD 0) with
                 | some inv =>
                   match inv.qty_on_hand with
                   | some v => v
                   | none => 0
                 | none => 0))
          else dictSet (itemBaseDict r) "qty_on_hand" Value.null)
      else
        (List.insertionSort mriIdAsc (itemsOf db mr_id)).map (fun r =>
          if !_is_admin_or_operator user then
            dictSet (dictSet (itemBaseDict r) "qty_on_hand" Value.null) "qty_used" Value.null
          else dictSet (itemBaseDict r) "qty_on_hand" Value.null)) := by
  unfold get_material_request_detail at hd
  simp only [hu] at hd
  simp only [hh] at hd
  cases hd
  rfl

lemma dictGet_setQoh_qoh (r : MRItemRow) (v : Value) :
    dictGet (dictSet (itemBaseDict r) "qty_on_hand" v) "qty_on_hand" = some v := rfl

lemma dictGet_setQoh_product (r : MRItemRow) (v : Value) :
    dictGet (dictSet (itemBaseDict r) "qty_on_hand" v) "product_id" =
      some (optI r.product_id) := rfl

lemma dictGet_setQohUsed_qoh (r : MRItemRow) (v : Value) :
    dictGet (dictSet (dictSet (itemBaseDict r) "qty_on_hand" Value.null) "qty_used" v)
      "qty_on_hand" = some Value.null := rfl

lemma dictGet_setQohUsed_product (r : MRItemRow) (v : Value) :
    dictGet (dictSet (dictSet (itemBaseDict r) "qty_on_hand" Value.null) "qty_used" v)
      "product_id" = some (optI r.product_id) := rfl

lemma dictGet_setQohUsed_used (r : MRItemRow) (v : Value) :
    dictGet (dictSet (dictSet (itemBaseDict r) "qty_on_hand" Value.null) "qty_used" v)
      "qty_used" = some v := rfl

/-- C2 (amended): in the detail view, an item shows a numeric quantity on
hand exactly when the caller has the sensitive capability AND the header
carries a truthy (non-null, nonzero) warehouse id AND the item a truthy
(non-null, nonzero) product id; in every other case the field is present
and null; and when those conditions hold but no inventory record matches
(warehouse, product), the value is the number 0, not an error. -/
theorem C2_qty_on_hand (db : DB) (uid mr_id : Int) (user : UserRow)
    (header : MRRow) (outD : DetailOut)
    (hu : _get_user db uid = Except.ok user)
    (hh : db.requests.find? (fun mr => mr.id == mr_id) = some header)
    (hd : get_material_request_detail db uid mr_id = Except.ok outD) :
    (∀ d ∈ outD.items,
      ((∃ q : Rat, dictGet d "qty_on_hand" = some (Value.r q)) ↔
        (_is_admin_or_operator user = true ∧ optTruthy header.warehouse_id = true ∧
          ∃ n : Int, n ≠ 0 ∧ dictGet d "product_id" = some (Value.i n)))
      ∧ (dictGet d "qty_on_hand" = some Value.null ∨
          ∃ q : Rat, dictGet d "qty_on_hand" = some (Value.r q)))
    ∧ (∀ d ∈ outD.items, ∀ n : Int,
        _is_admin_or_operator user = true →
        optTruthy header.warehouse_id = true →
        dictGet d "product_id" = some (Value.i n) → n ≠ 0 →
        invLookup db (header.warehouse_id.getD 0) n = none →
        dictGet d "qty_on_hand" = some (Value.r 0)) := by
  have hitems := detail_ok_items hu hh hd
  by_cases hcond : (_is_admin_or_operator user && optTruthy header.warehouse_id) = true
  · obtain ⟨hcap, hwh⟩ :
        _is_admin_or_operator user = true ∧ optTruthy header.warehouse_id = true := by
      simpa using hcond
    rw [if_pos hcond] at hitems
    constructor
    · intro d hdm
      rw [hitems] at hdm
      obtain ⟨r, _hr, rfl⟩ := List.mem_map.mp hdm
      by_cases hpt : optTruthy r.product_id = true
      · rw [if_pos (by simpa using hpt)]
        cases hp : r.product_id with
        | none => rw [hp] at hpt; cases hpt
        | some n =>
          have hn : n ≠ 0 := by
            rw [hp] at hpt
            simpa [optTruthy] using hpt
          constructor
          · constructor
            · intro _
              refine ⟨hcap, hwh, n, hn, ?_⟩
              rw [dictGet_setQoh_product, hp]
              rfl
            · intro _
              rw [dictGet_setQoh_qoh]
              exact ⟨_, rfl⟩
          · right
            rw [dictGet_setQoh_qoh]
            exact ⟨_, rfl⟩
      · have hpf : optTruthy r.product_id = false := by simpa using hpt
        rw [if_neg (by simp [hpf])]
        constructor
        · constructor
          · intro hq
            rw [dictGet_setQoh_qoh] at hq
            obtain ⟨q, hq⟩ := hq
            cases hq
          · rintro ⟨-, -, n, hn, hprod⟩
            rw [dictGet_setQoh_product] at hprod
            cases hp : r.product_id with
            | none => rw [hp] at hprod; cases hprod
            | some m =>
              rw [hp] at hprod
              have : m = n := by
                have := Option.some.inj hprod
                exact Value.i.inj this
              rw [hp] at hpf
              simp only [optTruthy, bne_eq_false_iff_eq] at hpf
              exact absurd (by rw [← this, hpf]) hn.symm
        · left
          exact dictGet_setQoh_qoh r Value.null
    · intro d hdm n hcap2 hwh2 hprod hn hinv
      rw [hitems] at hdm
      obtain ⟨r, _hr, rfl⟩ := List.mem_map.mp hdm
      by_cases hpt : optTruthy r.product_id = true
      · have hpn : r.product_id = some n := by
          rw [if_pos (by simpa using hpt), dictGet_setQoh_product] at hprod
          cases hp : r.product_id with
          | none => rw [hp] at hprod; cases hprod
          | some m =>
            rw [hp] at hprod
            have : m = n := Value.i.inj (Option.some.inj hprod)
            rw [this]
        rw [if_pos (by simpa using hpt), dictGet_setQoh_qoh]
        rw [hpn]
        simp only [Option.getD_some]
        rw [hinv]
      · have hpf : optTruthy r.product_id = false := by simpa using hpt
        rw [if_neg (by simp [hpf]), dictGet_setQoh_product] at hprod
        cases hp : r.product_id with
        | none => rw [hp] at hprod; cases hprod
        | some m =>
          rw [hp] at hprod
          have hmn : m = n := Value.i.inj (Option.some.inj hprod)
          rw [hp] at hpf
          simp only [optTruthy, bne_eq_false_iff_eq] at hpf
          exact absurd (by rw [← hmn, hpf]) hn.symm
  · have hcf := Bool.not_eq_true _ ▸ hcond
    rw [if_neg hcond] at hitems
    constructor
    · intro d hdm
      rw [hitems] at hdm
      obtain ⟨r, _hr, rfl⟩ := List.mem_map.mp hdm
      have hqoh : dictGet
          (if !_is_admin_or_operator user then
            dictSet (dictSet (itemBaseDict r) "qty_on_hand" Value.null) "qty_used" Value.null
          else dictSet (itemBaseDict r) "qty_on_hand" Value.null) "qty_on_hand" =
          some Value.null := by
        by_cases hcap : _is_admin_or_operator user = true
        · rw [if_neg (by simp [hcap])]
          exact dictGet_setQoh_qoh r Value.null
        · rw [if_pos (by simp [Bool.not_eq_true _ ▸ hcap])]
          exact dictGet_setQohUsed_qoh r Value.null
      constructor
      · constructor
        · intro hq
          rw [hqoh] at hq
          obtain ⟨q, hq⟩ := hq
          cases hq
        · rintro ⟨hcap2, hwh2, -⟩
          exact absurd (by rw [hcap2, hwh2]; rfl) hcond
      · left
        exact hqoh
    · intro d hdm n hcap2 hwh2 _ _ _
      exact absurd (by rw [hcap2, hwh2]; rfl) hcond

/-- The admin row of `sampleDb`. -/
def aliceRow : UserRow :=
  { id := 1, name := "Alice", role_id := RoleField.val 6, deleted := false }

/-- The request header row of `sampleDb`. -/
def sampleHeader : MRRow :=
  { id := 1, project_id := some 1, client_id := none, estimate_id := none,
    estimate_revision_id := none, status := "DRAFT", warehouse_id := some 1,
    requested_by := 1, memo := some "cable works",
    created_at := { year := 2026, tick := 0 },
    updated_at := { year := 2026, tick := 0 } }

/-- A database whose only request has warehouse id 0 (assigned but falsy for
Python truthiness): admin caller, one item with product link 1, empty
inventory. -/
def zeroWhDb : DB :=
  { users := [aliceRow],
    requests := [{ sampleHeader with warehouse_id := some 0 }],
    items := [{ id := 1, material_request_id := 1, product_id := some 1,
                estimate_item_id := none, item_name_snapshot := some "Cable",
                spec_snapshot := some "", unit_snapshot := some "EA",
                qty_requested := some 10, qty_used := some 0, note := some "",
                prep_status := "PREPARING" }],
    inventory := [],
    next_mr_id := 2,
    next_item_id := 2 }

/-- Like `zeroWhDb` but with warehouse id 1 and product id 0 on the item. -/
def zeroProdDb : DB :=
  { zeroWhDb with
    requests := [sampleHeader],
    items := [{ id := 1, material_request_id := 1, product_id := some 0,
                estimate_item_id := none, item_name_snapshot := some "Cable",
                spec_snapshot := some "", unit_snapshot := some "EA",
                qty_requested := some 10, qty_used := some 0, note := some "",
                prep_status := "PREPARING" }] }

/-- C2 counterexample: a privileged caller, a header with a warehouse
assigned (value 0) and an item with a product link, or a warehouse of 1 and
a product link of value 0, with no matching inventory record: the claim
says quantity-on-hand must be the number 0, but the code leaves it null in
both cases, because Python truthiness treats an assigned 0 as unset. -/
theorem C2_counterexample :
    _is_admin_or_operator aliceRow = true
    ∧ zeroWhDb.requests.map (fun mr => mr.warehouse_id) = [some 0]
    ∧ zeroWhDb.items.map (fun it => it.product_id) = [some 1]
    ∧ zeroWhDb.inventory = []
    ∧ ((get_material_request_detail zeroWhDb 1 1).toOption.getD
        { can_see_sensitive := false, header := [], prep_status := "", items := [] }).items.map
        (fun d => dictGet d "qty_on_hand") = [some Value.null]
    ∧ zeroProdDb.requests.map (fun mr => mr.warehouse_id) = [some 1]
    ∧ zeroProdDb.items.map (fun it => it.product_id) = [some 0]
    ∧ zeroProdDb.inventory = []
    ∧ ((get_material_request_detail zeroProdDb 1 1).toOption.getD
        { can_see_sensitive := false, header := [], prep_status := "", items := [] }).items.map
        (fun d => dictGet d "qty_on_hand") = [some Value.null]
    ∧ (some Value.null ≠ some (Value.r 0)) :=
  ⟨rfl, rfl, rfl, rfl, by rfl, rfl, rfl, rfl, by rfl, by decide⟩

theorem C2_qty_on_hand_witness :
    (∀ d ∈ sampleDetail.items,
      ((∃ q : Rat, dictGet d "qty_on_hand" = some (Value.r q)) ↔
        (_is_admin_or_operator aliceRow = true ∧
          optTruthy sampleHeader.warehouse_id = true ∧
          ∃ n : Int, n ≠ 0 ∧ dictGet d "product_id" = some (Value.i n)))
      ∧ (dictGet d "qty_on_hand" = some Value.null ∨
          ∃ q : Rat, dictGet d "qty_on_hand" = some (Value.r q)))
    ∧ (∀ d ∈ sampleDetail.items, ∀ n : Int,
        _is_admin_or_operator aliceRow = true →
        optTruthy sampleHeader.warehouse_id = true →
        dictGet d "product_id" = some (Value.i n) → n ≠ 0 →
        invLookup sampleDb (sampleHeader.warehouse_id.getD 0) n = none →
        dictGet d "qty_on_hand" = some (Value.r 0)) :=
  C2_qty_on_hand sampleDb 1 1 aliceRow sampleHeader sampleDetail
    (by rfl) (by rfl) (by rfl)

/-- The regular-role row of `sampleDb`. -/
def bobRow : UserRow :=
  { id := 2, name := "Bob", role_id := RoleField.val 3, deleted := false }

/-- The detail response of `sampleDb` for the regular caller. -/
def sampleDetailBob : DetailOut :=
  (get_material_request_detail sampleDb 2 1).toOption.getD
    { can_see_sensitive := false, header := [], prep_status := "", items := [] }

/-- C3: a caller whose role id is neither privileged value has no sensitive
capability; the list view carries no quantity-on-hand and no used-quantity
key for any caller at all; and in the detail view every item dict of such a
non-privileged caller has its used quantity nulled out. -/
theorem C3_no_sensitive_for_unprivileged (db : DB) (uid mr_id year : Int)
    (q : String) (user : UserRow) (outD : DetailOut)
    (hu : _get_user db uid = Except.ok user)
    (hrole : ¬(user.role_id = RoleField.val ROLE_ADMIN_ID ∨
               user.role_id = RoleField.val ROLE_OPERATOR_ID))
    (hd : get_material_request_detail db uid mr_id = Except.ok outD) :
    _is_admin_or_operator user = false
    ∧ (∀ uid2 : Int, ∀ outL : ListOut,
        list_material_requests db uid2 year q = Except.ok outL →
        ∀ d ∈ outL.items, dictGet d "qty_on_hand" = none ∧ dictGet d "qty_used" = none)
    ∧ (∀ d ∈ outD.items, dictGet d "qty_used" = some Value.null) := by
  have hcap : _is_admin_or_operator user = false := by
    cases hr : user.role_id with
    | absent => simp [_is_admin_or_operator, hr]
    | unparseable => simp [_is_admin_or_operator, hr]
    | val n =>
      have h6 : n ≠ ROLE_ADMIN_ID := fun h => hrole (Or.inl (by rw [hr, h]))
      have h7 : n ≠ ROLE_OPERATOR_ID := fun h => hrole (Or.inr (by rw [hr, h]))
      simp [_is_admin_or_operator, hr, h6, h7]
  refine ⟨hcap, ?_, ?_⟩
  · intro uid2 outL hl d hdm
    rw [list_ok_items hl] at hdm
    obtain ⟨mr, _hmr, rfl⟩ := List.mem_map.mp hdm
    exact ⟨rfl, rfl⟩
  · intro d hdm
    cases hh : db.requests.find? (fun mr => mr.id == mr_id) with
    | none =>
      exfalso
      unfold get_material_request_detail at hd
      simp only [hu, hh] at hd
      cases hd
    | some header =>
      have hitems := detail_ok_items hu hh hd
      rw [if_neg (by simp [hcap])] at hitems
      rw [hitems] at hdm
      obtain ⟨r, _hr, rfl⟩ := List.mem_map.mp hdm
      rw [if_pos (by simp [hcap])]
      exact dictGet_setQohUsed_used r Value.null

theorem C3_no_sensitive_for_unprivileged_witness :
    _is_admin_or_operator bobRow = false
    ∧ (∀ uid2 : Int, ∀ outL : ListOut,
        list_material_requests sampleDb uid2 0 "" = Except.ok outL →
        ∀ d ∈ outL.items, dictGet d "qty_on_hand" = none ∧ dictGet d "qty_used" = none)
    ∧ (∀ d ∈ sampleDetailBob.items, dictGet d "qty_used" = some Value.null) :=
  C3_no_sensitive_for_unprivileged sampleDb 2 1 0 "" bobRow sampleDetailBob
    (by rfl) (by decide) (by rfl)

lemma insertItems_some (ok : MRItemIn → Bool) (mr_id : Int) :
    ∀ (its : List MRItemIn) (nid : Int) (rows : List MRItemRow),
      insertItems ok mr_id nid its = some rows →
      rows.length = its.length ∧
        ∀ r ∈ rows, r.material_request_id = mr_id ∧ r.prep_status = "PREPARING"
          ∧ r.qty_used = some 0 := by
  intro its
  induction its with
  | nil =>
    intro nid rows h
    unfold insertItems at h
    cases h
    exact ⟨rfl, by intro r hr; cases hr⟩
  | cons it rest ih =>
    intro nid rows h
    unfold insertItems at h
    by_cases hok : ok it = true
    · rw [if_pos hok] at h
      cases hres : insertItems ok mr_id (nid + 1) rest with
      | none => rw [hres] at h; cases h
      | some rows2 =>
        rw [hres] at h
        cases h
        obtain ⟨hlen, hall⟩ := ih (nid + 1) rows2 hres
        refine ⟨by simp [hlen], ?_⟩
        intro r hr
        rcases List.mem_cons.mp hr with h1 | h1
        · subst h1; exact ⟨rfl, rfl, rfl⟩
        · exact hall r h1
    · rw [if_neg hok] at h; cases h

lemma insertItems_fail (ok : MRItemIn → Bool) (mr_id : Int) :
    ∀ (its : List MRItemIn) (nid : Int), (∃ it ∈ its, ok it = false) →
      insertItems ok mr_id nid its = none := by
  intro its
  induction its with
  | nil =>
    rintro nid ⟨it, hmem, -⟩
    cases hmem
  | cons a rest ih =>
    rintro nid ⟨it, hmem, hfalse⟩
    unfold insertItems
    rcases List.mem_cons.mp hmem with h1 | h1
    · subst h1
      rw [if_neg (by simp [hfalse])]
    · by_cases hok : ok a = true
      · rw [if_pos hok, ih (nid + 1) ⟨it, h1, hfalse⟩]
      · rw [if_neg hok]

/-- C7: a successful create returns the freshly assigned identifier together
with status DRAFT, and appends exactly one stored row per supplied line
item, each with preparation status forced to PREPARING and used quantity
forced to 0 (the input model has no fields for either, so no caller-supplied
value can reach them). -/
theorem C7_create_forces_prep_and_used (db : DB) (now : Timestamp) (uid : Int)
    (p : MRCreateIn) (db2 : DB) (out : CreateOut)
    (h : create_material_request db now uid p = (db2, Except.ok out)) :
    out = { id := db.next_mr_id, status := "DRAFT" }
    ∧ ∃ rows, db2.items = db.items ++ rows
        ∧ rows.length = p.items.length
        ∧ ∀ r ∈ rows, r.material_request_id = out.id
            ∧ r.prep_status = "PREPARING" ∧ r.qty_used = some 0 := by
  unfold create_material_request create_material_request_fx at h
  cases hreq : require_admin_or_operator db uid with
  | error e => rw [hreq] at h; simp at h
  | ok user =>
    simp only [hreq] at h
    cases hins : insertItems (fun _ => true) db.next_mr_id db.next_item_id p.items with
    | none => rw [hins] at h; simp at h
    | some rows =>
      simp only [hins] at h
      injection h with h1 h2
      injection h2 with h3
      subst h1
      subst h3
      obtain ⟨hlen, hall⟩ := insertItems_some (fun _ => true) db.next_mr_id
        p.items db.next_item_id rows hins
      exact ⟨rfl, rows, rfl, hlen, hall⟩

/-- A concrete create payload with one line item. -/
def cpSample : MRCreateIn :=
  { project_id := some 1, memo := "m",
    items := [{ product_id := some 1, item_name_snapshot := "Cable",
                unit_snapshot := "EA", qty_requested := 2 }] }

/-- The result of creating `cpSample` on `sampleDb` as the admin. -/
def c7Res : DB × Except Err CreateOut :=
  create_material_request sampleDb { year := 2026, tick := 1 } 1 cpSample

/-- The body of the successful create `c7Res`. -/
def c7Out : CreateOut := c7Res.2.toOption.getD { id := 0, status := "" }

theorem C7_create_forces_prep_and_used_witness :
    c7Out = { id := sampleDb.next_mr_id, status := "DRAFT" }
    ∧ ∃ rows, c7Res.1.items = sampleDb.items ++ rows
        ∧ rows.length = cpSample.items.length
        ∧ ∀ r ∈ rows, r.material_request_id = c7Out.id
            ∧ r.prep_status = "PREPARING" ∧ r.qty_used = some 0 :=
  C7_create_forces_prep_and_used sampleDb { year := 2026, tick := 1 } 1 cpSample
    c7Res.1 c7Out (by rfl)

/-- C8: create is one unit of work; when any line-item insert fails, the
whole call fails and the committed state is exactly the pre-state, so no
orphan header is committed even though the inserts run sequentially. -/
theorem C8_create_atomicity (ok : MRItemIn → Bool) (db : DB) (now : Timestamp)
    (uid : Int) (p : MRCreateIn)
    (hfail : ∃ it ∈ p.items, ok it = false) :
    (create_material_request_fx ok db now uid p).1 = db
    ∧ ∃ e, (create_material_request_fx ok db now uid p).2 = Except.error e := by
  unfold create_material_request_fx
  cases hreq : require_admin_or_operator db uid with
  | error e =>
    simp only [hreq]
    exact ⟨by simp, e, by simp⟩
  | ok user =>
    simp only [hreq]
    rw [insertItems_fail ok db.next_mr_id p.items db.next_item_id hfail]
    exact ⟨rfl, Err.dbFailure, rfl⟩

theorem C8_create_atomicity_witness :
    (∃ it ∈ cpSample.items, (fun _ => false) it = false)
    ∧ (create_material_request_fx (fun _ => false) sampleDb
        { year := 2026, tick := 1 } 1 cpSample).1 = sampleDb
    ∧ ∃ e, (create_material_request_fx (fun _ => false) sampleDb
        { year := 2026, tick := 1 } 1 cpSample).2 = Except.error e := by
  have h := C8_create_atomicity (fun _ => false) sampleDb { year := 2026, tick := 1 }
    1 cpSample ⟨{ product_id := some 1, item_name_snapshot := "Cable",
                  unit_snapshot := "EA", qty_requested := 2 }, by decide, rfl⟩
  exact ⟨⟨{ product_id := some 1, item_name_snapshot := "Cable",
            unit_snapshot := "EA", qty_requested := 2 }, by decide, rfl⟩, h.1, h.2⟩

/-- C9: a successful UpdateHeader touches only the requests table; on the
rows whose id matches, set fields overwrite, unset fields keep their stored
value, the updated timestamp is refreshed unconditionally, every other
header column (ids, links, status, requester, creation time) is unchanged,
and a call with no optional field supplied changes nothing but the
timestamp; rows with a different id are untouched. -/
theorem C9_update_header_merge (db : DB) (now : Timestamp) (uid mr_id : Int)
    (p : MRUpdateIn) (db2 : DB)
    (h : update_material_request db now uid mr_id p = (db2, Except.ok { ok := true })) :
    db2.users = db.users ∧ db2.items = db.items ∧ db2.inventory = db.inventory
    ∧ db2.next_mr_id = db.next_mr_id ∧ db2.next_item_id = db.next_item_id
    ∧ db2.requests.length = db.requests.length
    ∧ ∀ (i : Nat) (hi : i < db.requests.length) (hj : i < db2.requests.length),
        ((db.requests.get ⟨i, hi⟩).id ≠ mr_id →
          db2.requests.get ⟨i, hj⟩ = db.requests.get ⟨i, hi⟩)
        ∧ ((db.requests.get ⟨i, hi⟩).id = mr_id →
            (∀ m, p.memo = some m → (db2.requests.get ⟨i, hj⟩).memo = some m)
            ∧ (p.memo = none →
                (db2.requests.get ⟨i, hj⟩).memo = (db.requests.get ⟨i, hi⟩).memo)
            ∧ (∀ w, p.warehouse_id = some w →
                (db2.requests.get ⟨i, hj⟩).warehouse_id = some w)
            ∧ (p.warehouse_id = none →
                (db2.requests.get ⟨i, hj⟩).warehouse_id =
                  (db.requests.get ⟨i, hi⟩).warehouse_id)
            ∧ (db2.requests.get ⟨i, hj⟩).updated_at = now
            ∧ (db2.requests.get ⟨i, hj⟩).id = (db.requests.get ⟨i, hi⟩).id
            ∧ (db2.requests.get ⟨i, hj⟩).project_id = (db.requests.get ⟨i, hi⟩).project_id
            ∧ (db2.requests.get ⟨i, hj⟩).client_id = (db.requests.get ⟨i, hi⟩).client_id
            ∧ (db2.requests.get ⟨i, hj⟩).estimate_id = (db.requests.get ⟨i, hi⟩).estimate_id
            ∧ (db2.requests.get ⟨i, hj⟩).estimate_revision_id =
                (db.requests.get ⟨i, hi⟩).estimate_revision_id
            ∧ (db2.requests.get ⟨i, hj⟩).status = (db.requests.get ⟨i, hi⟩).status
            ∧ (db2.requests.get ⟨i, hj⟩).requested_by =
                (db.requests.get ⟨i, hi⟩).requested_by
            ∧ (db2.requests.get ⟨i, hj⟩).created_at = (db.requests.get ⟨i, hi⟩).created_at
            ∧ (p.memo = none → p.warehouse_id = none →
                db2.requests.get ⟨i, hj⟩ =
                  { db.requests.get ⟨i, hi⟩ with updated_at := now })) := by
  unfold update_material_request at h
  cases hreq : require_admin_or_operator db uid with
  | error e => rw [hreq] at h; simp at h
  | ok user =>
    simp only [hreq] at h
    injection h with h1 _h2
    subst h1
    refine ⟨rfl, rfl, rfl, rfl, rfl, by simp, ?_⟩
    intro i hi hj
    have hget : (db.requests.map
        (fun mr => if mr.id == mr_id then updateHeaderRow now p mr else mr)).get ⟨i, hj⟩ =
        (if (db.requests.get ⟨i, hi⟩).id == mr_id then
          updateHeaderRow now p (db.requests.get ⟨i, hi⟩)
        else db.requests.get ⟨i, hi⟩) := by
      simp [List.get_eq_getElem, List.getElem_map]
    constructor
    · intro hne
      have hb : ((db.requests.get ⟨i, hi⟩).id == mr_id) = false := by simpa using hne
      show (db.requests.map _).get ⟨i, hj⟩ = _
      rw [hget, hb]
      simp
    · intro heq
      have hb : ((db.requests.get ⟨i, hi⟩).id == mr_id) = true := by simpa using heq
      have hget2 : (db.requests.map
          (fun mr => if mr.id == mr_id then updateHeaderRow now p mr else mr)).get ⟨i, hj⟩ =
          updateHeaderRow now p (db.requests.get ⟨i, hi⟩) := by
        rw [hget, hb]
        simp
      refine ⟨?_, ?_, ?_, ?_, ?_, ?_, ?_, ?_, ?_, ?_, ?_, ?_, ?_, ?_⟩
      · intro m hm
        show ((db.requests.map _).get ⟨i, hj⟩).memo = some m
        rw [hget2]
        simp [updateHeaderRow, hm]
      · intro hm
        show ((db.requests.map _).get ⟨i, hj⟩).memo = _
        rw [hget2]
        simp [updateHeaderRow, hm]
      · intro w hw
        show ((db.requests.map _).get ⟨i, hj⟩).warehouse_id = some w
        rw [hget2]
        simp [updateHeaderRow, hw]
      · intro hw
        show ((db.requests.map _).get ⟨i, hj⟩).warehouse_id = _
        rw [hget2]
        simp [updateHeaderRow, hw]
      · show ((db.requests.map _).get ⟨i, hj⟩).updated_at = now
        rw [hget2]
        simp [updateHeaderRow]
      · show ((db.requests.map _).get ⟨i, hj⟩).id = _
        rw [hget2]
        simp [updateHeaderRow]
      · show ((db.requests.map _).get ⟨i, hj⟩).project_id = _
        rw [hget2]
        simp [updateHeaderRow]
      · show ((db.requests.map _).get ⟨i, hj⟩).client_id = _
        rw [hget2]
        simp [updateHeaderRow]
      · show ((db.requests.map _).get ⟨i, hj⟩).estimate_id = _
        rw [hget2]
        simp [updateHeaderRow]
      · show ((db.requests.map _).get ⟨i, hj⟩).estimate_revision_id = _
        rw [hget2]
        simp [updateHeaderRow]
      · show ((db.requests.map _).get ⟨i, hj⟩).status = _
        rw [hget2]
        simp [updateHeaderRow]
      · show ((db.requests.map _).get ⟨i, hj⟩).requested_by = _
        rw [hget2]
        simp [updateHeaderRow]
      · show ((db.requests.map _).get ⟨i, hj⟩).created_at = _
        rw [hget2]
        simp [updateHeaderRow]
      · intro hm hw
        show (db.requests.map _).get ⟨i, hj⟩ = _
        rw [hget2]
        simp [updateHeaderRow, hm, hw]

/-- The post-state of a concrete header update on `sampleDb`. -/
def c9Db : DB :=
  (update_material_request sampleDb { year := 2026, tick := 2 } 1 1
    { memo := some "updated" }).1

theorem C9_update_header_merge_witness :
    c9Db.users = sampleDb.users ∧ c9Db.items = sampleDb.items
    ∧ c9Db.inventory = sampleDb.inventory
    ∧ c9Db.next_mr_id = sampleDb.next_mr_id ∧ c9Db.next_item_id = sampleDb.next_item_id
    ∧ c9Db.requests.length = sampleDb.requests.length
    ∧ ∀ (i : Nat) (hi : i < sampleDb.requests.length) (hj : i < c9Db.requests.length),
        ((sampleDb.requests.get ⟨i, hi⟩).id ≠ 1 →
          c9Db.requests.get ⟨i, hj⟩ = sampleDb.requests.get ⟨i, hi⟩)
        ∧ ((sampleDb.requests.get ⟨i, hi⟩).id = 1 →
            (∀ m, (some "updated" : Option String) = some m →
              (c9Db.requests.get ⟨i, hj⟩).memo = some m)
            ∧ ((some "updated" : Option String) = none →
                (c9Db.requests.get ⟨i, hj⟩).memo = (sampleDb.requests.get ⟨i, hi⟩).memo)
            ∧ (∀ w, (none : Option Int) = some w →
                (c9Db.requests.get ⟨i, hj⟩).warehouse_id = some w)
            ∧ ((none : Option Int) = none →
                (c9Db.requests.get ⟨i, hj⟩).warehouse_id =
                  (sampleDb.requests.get ⟨i, hi⟩).warehouse_id)
            ∧ (c9Db.requests.get ⟨i, hj⟩).updated_at = { year := 2026, tick := 2 }
            ∧ (c9Db.requests.get ⟨i, hj⟩).id = (sampleDb.requests.get ⟨i, hi⟩).id
            ∧ (c9Db.requests.get ⟨i, hj⟩).project_id =
                (sampleDb.requests.get ⟨i, hi⟩).project_id
            ∧ (c9Db.requests.get ⟨i, hj⟩).client_id =
                (sampleDb.requests.get ⟨i, hi⟩).client_id
            ∧ (c9Db.requests.get ⟨i, hj⟩).estimate_id =
                (sampleDb.requests.get ⟨i, hi⟩).estimate_id
            ∧ (c9Db.requests.get ⟨i, hj⟩).estimate_revision_id =
                (sampleDb.requests.get ⟨i, hi⟩).estimate_revision_id
            ∧ (c9Db.requests.get ⟨i, hj⟩).status = (sampleDb.requests.get ⟨i, hi⟩).status
            ∧ (c9Db.requests.get ⟨i, hj⟩).requested_by =
                (sampleDb.requests.get ⟨i, hi⟩).requested_by
            ∧ (c9Db.requests.get ⟨i, hj⟩).created_at =
                (sampleDb.requests.get ⟨i, hi⟩).created_at
            ∧ ((some "updated" : Option String) = none → (none : Option Int) = none →
                c9Db.requests.get ⟨i, hj⟩ =
                  { sampleDb.requests.get ⟨i, hi⟩ with
                      updated_at := { year := 2026, tick := 2 } })) :=
  C9_update_header_merge sampleDb { year := 2026, tick := 2 } 1 1
    { memo := some "updated" } c9Db (by rfl)

lemma map_noop {α : Type} {f : α → α} {l : List α} (h : ∀ a ∈ l, f a = a) :
    l.map f = l := by
  induction l with
  | nil => rfl
  | cons a t ih =>
    rw [List.map_cons, h a (List.mem_cons_self a t),
        ih (fun b hb => h b (List.mem_cons_of_mem a hb))]

/-- C10: with a caller passing the respective capability gates and
well-formed fields, UpdateHeader on an id matching no stored request and
PatchItem on an id matching no stored item both return the success
acknowledgement (never NotFound) and leave the committed state exactly as it
was. -/
theorem C10_missing_id_noop (db : DB) (now : Timestamp)
    (uidU uidP mr_id item_id : Int) (pU : MRUpdateIn) (pP : MRItemPatchIn)
    (userU userP : UserRow)
    (hru : require_admin_or_operator db uidU = Except.ok userU)
    (hmr : ∀ mr ∈ db.requests, mr.id ≠ mr_id)
    (hup : _get_user db uidP = Except.ok userP)
    (hwf1 : ¬(pP.qty_used.isSome = true ∧ _is_admin_or_operator userP = false))
    (hwf2 : prep_status_invalid pP.prep_status = false)
    (hit : ∀ it ∈ db.items, it.id ≠ item_id) :
    update_material_request db now uidU mr_id pU = (db, Except.ok { ok := true })
    ∧ patch_material_request_item db uidP item_id pP =
        (db, Except.ok { ok := true }) := by
  constructor
  · unfold update_material_request
    simp only [hru]
    have hmap : db.requests.map
        (fun mr => if mr.id == mr_id then updateHeaderRow now pU mr else mr) =
        db.requests := by
      apply map_noop
      intro mr hm
      simp [hmr mr hm]
    rw [hmap]
  · unfold patch_material_request_item
    simp only [hup]
    have hc1 : (pP.qty_used.isSome && !_is_admin_or_operator userP) = false := by
      cases h1 : pP.qty_used.isSome <;> cases h2 : _is_admin_or_operator userP <;>
        simp_all
    have hmap : db.items.map
        (fun it => if it.id == item_id then patchItemRow pP it else it) =
        db.items := by
      apply map_noop
      intro it hm
      simp [hit it hm]
    rw [if_neg (by simp [hc1]), if_neg (by simp [hwf2]), hmap]

theorem C10_missing_id_noop_witness :
    (require_admin_or_operator sampleDb 1 = Except.ok aliceRow)
    ∧ (∀ mr ∈ sampleDb.requests, mr.id ≠ 99)
    ∧ (∀ it ∈ sampleDb.items, it.id ≠ 99)
    ∧ update_material_request sampleDb { year := 2026, tick := 3 } 1 99 {} =
        (sampleDb, Except.ok { ok := true })
    ∧ patch_material_request_item sampleDb 1 99 { note := some "x" } =
        (sampleDb, Except.ok { ok := true }) := by
  have h := C10_missing_id_noop sampleDb { year := 2026, tick := 3 } 1 1 99 99
    {} { note := some "x" } aliceRow aliceRow (by rfl) (by decide) (by rfl)
    (by decide) (by decide) (by decide)
  exact ⟨by rfl, by decide, by decide, h.1, h.2⟩
